import Mathlib

/-!
Shallow embedding of the `IntWrapper` value type from
`src/constructors.cpp` and `src/forwarding.cpp`, together with the
concrete scenarios their `main` functions run.

The C++ class holds two fields:
  - `int value_;`           (mutable payload)
  - `const int val2{2};`    (const member with default member initializer 2)

Its special member functions are:
  - `IntWrapper()            : value_(0)`                      — `val2` takes its
    default member initializer, 2.
  - `IntWrapper(int value)   : value_(value), val2{value}`     — both fields set
    from the argument.
  - `IntWrapper(const IntWrapper& other) : value_(other.value_)` — `val2` again
    defaults to 2 (the mem-initializer list does not mention it).
  - `IntWrapper(IntWrapper&& other) : value_(std::move(other.value_))` —
    moving an `int` reads (copies) it, so the source is left unchanged;
    `val2` defaults to 2.
  - copy assignment: `value_ = other.value_;` (`val2` is `const`, untouched).
  - move assignment: `value_ = std::move(other.value_);` — same state effect
    as copy assignment on both objects, since moving an `int` copies it.

Move operations are embedded as functions returning both the produced /
updated object and the post-operation state of the source, so that the
effect on the moved-from object is part of the model.
-/

structure IntWrapper where
  value_ : Int
  val2 : Int
deriving DecidableEq, Repr

namespace IntWrapper

/-- `IntWrapper() : value_(0)` — `val2` takes its default member
initializer `{2}`. -/
def defaultCtor : IntWrapper := ⟨0, 2⟩

/-- `IntWrapper(int value) : value_(value), val2{value}`. -/
def argCtor (value : Int) : IntWrapper := ⟨value, value⟩

/-- `IntWrapper(const IntWrapper& other) : value_(other.value_)` —
`val2` is not in the mem-initializer list, so it takes its default
member initializer `{2}`. -/
def copyCtor (other : IntWrapper) : IntWrapper := ⟨other.value_, 2⟩

/-- `IntWrapper(IntWrapper&& other) : value_(std::move(other.value_))`.
`std::move` on an `int` member just reads it, so the source object is
unmodified; `val2` takes its default member initializer `{2}`.
Returns `(constructed object, source after the move)`. -/
def moveCtor (other : IntWrapper) : IntWrapper × IntWrapper :=
  (⟨other.value_, 2⟩, other)

/-- Copy assignment operator: `value_ = other.value_; return *this;` —
`val2` is `const` and cannot be (and is not) assigned. -/
def copyAssign (self other : IntWrapper) : IntWrapper :=
  { self with value_ := other.value_ }

/-- Move assignment operator: `value_ = std::move(other.value_);` —
moving an `int` copies it, so the source is unmodified; `val2` is
`const` and untouched. Returns `(destination after, source after)`. -/
def moveAssign (self other : IntWrapper) : IntWrapper × IntWrapper :=
  ({ self with value_ := other.value_ }, other)

end IntWrapper

/-!
Concrete scenario of `main` in `src/constructors.cpp` (the executable,
non-commented statements touching `wrapper` and `newWrapper`):

  auto wrapper = IntWrapper(22);
  IntWrapper newWrapper;
  newWrapper = wrapper;              // copy assignment
  newWrapper = std::move(wrapper);   // move assignment
-/

/-- `auto wrapper = IntWrapper(22);` — the `h1` of the scenario. -/
def ctorsMain_h1 : IntWrapper := IntWrapper.argCtor 22

/-- `IntWrapper newWrapper;` — the `h2` of the scenario, right after
default construction. -/
def ctorsMain_h2_afterDefault : IntWrapper := IntWrapper.defaultCtor

/-- `newWrapper = wrapper;` — `h2` after the copy assignment. -/
def ctorsMain_h2_afterCopyAssign : IntWrapper :=
  ctorsMain_h2_afterDefault.copyAssign ctorsMain_h1

/-- `newWrapper = std::move(wrapper);` — `h2` after the move
assignment. -/
def ctorsMain_h2_afterMoveAssign : IntWrapper :=
  (ctorsMain_h2_afterCopyAssign.moveAssign ctorsMain_h1).1

/-!
`src/forwarding.cpp`:

  template<typename T> void valAssign(T&& valIn) {
      IntWrapper val = std::move(valIn);   // move constructor
      std::cout << "value: " << val.value_ << std::endl;
  }
  int main() {
      IntWrapper val(2);
      valAssign(std::move(val));
  }

`valAssign` move-constructs a local `val` from its argument and prints
`val.value_`; we embed it as returning the printed value together with
the post-call state of the argument.
-/

/-- `valAssign`: move-construct a local from the argument, returning
`(printed value, argument after the move)`. -/
def valAssign (valIn : IntWrapper) : Int × IntWrapper :=
  let p := IntWrapper.moveCtor valIn
  (p.1.value_, p.2)

/-- Output value of `main` in `src/forwarding.cpp`: value-construct
`val(2)`, then `valAssign(std::move(val))`. -/
def forwardingMainOutput : Int :=
  let val := IntWrapper.argCtor 2
  (valAssign val).1

/-- C1: copy-constructing from any instance `o` yields an instance whose
`primary` (`value_`) equals `o.value_` and whose `secondary` (`val2`)
equals 2, regardless of `o.val2`. -/
theorem copyCtor_primary_and_secondary (o : IntWrapper) :
    (IntWrapper.copyCtor o).value_ = o.value_ ∧
    (IntWrapper.copyCtor o).val2 = 2 := by
  constructor <;> rfl

/-- C2: `secondary` (`val2`) is never modified by the operations that can
act on an existing instance — copy assignment and move assignment both
leave the destination's `val2` unchanged (and move assignment leaves the
source's `val2` unchanged as well), so `val2` keeps its
construction-time value for the whole lifetime of the instance. -/
theorem secondary_immutable_after_construction (d o : IntWrapper) :
    (d.copyAssign o).val2 = d.val2 ∧
    (d.moveAssign o).1.val2 = d.val2 ∧
    (d.moveAssign o).2.val2 = o.val2 := by
  refine ⟨rfl, rfl, rfl⟩

/-- C3: for any destination `d` and source `o`, move assignment produces
exactly the same final destination state as copy assignment would. -/
theorem moveAssign_eq_copyAssign (d o : IntWrapper) :
    (d.moveAssign o).1 = d.copyAssign o := rfl

/-- C4: copy-assigning `o` into `d` sets `d.value_` to `o.value_` and
changes nothing else: `d.val2` after equals `d.val2` before. -/
theorem copyAssign_frame (d o : IntWrapper) :
    (d.copyAssign o).value_ = o.value_ ∧
    (d.copyAssign o).val2 = d.val2 := by
  constructor <;> rfl

/-- C5: value-constructing with any integer `v` yields an instance with
`value_ = v` and `val2 = v`. -/
theorem argCtor_fields (v : Int) :
    (IntWrapper.argCtor v).value_ = v ∧
    (IntWrapper.argCtor v).val2 = v := by
  constructor <;> rfl

/-- C6: default construction yields `value_ = 0` and `val2 = 2`. -/
theorem defaultCtor_fields :
    IntWrapper.defaultCtor.value_ = 0 ∧
    IntWrapper.defaultCtor.val2 = 2 := by
  constructor <;> rfl

/-- C7: move-constructing from any instance `o` yields an instance with
`value_ = o.value_` and `val2 = 2` (the default member initializer, not
`o.val2`). -/
theorem moveCtor_primary_and_secondary (o : IntWrapper) :
    (IntWrapper.moveCtor o).1.value_ = o.value_ ∧
    (IntWrapper.moveCtor o).1.val2 = 2 := by
  constructor <;> rfl

/-- C8: in the four-step scenario of `src/constructors.cpp`'s `main`
(value-construct `h1` with 22; default-construct `h2`; copy-assign
`h2 = h1`; move-assign `h2 = move(h1)`), the observable states are
`h1 = (22, 22)` after step 1, `h2 = (0, 2)` after step 2, `h2 = (22, 2)`
after the copy assignment, and `h2 = (22, 2)` after the move
assignment. -/
theorem ctorsMain_scenario :
    ctorsMain_h1.value_ = 22 ∧ ctorsMain_h1.val2 = 22 ∧
    ctorsMain_h2_afterDefault.value_ = 0 ∧
    ctorsMain_h2_afterDefault.val2 = 2 ∧
    ctorsMain_h2_afterCopyAssign.value_ = 22 ∧
    ctorsMain_h2_afterCopyAssign.val2 = 2 ∧
    ctorsMain_h2_afterMoveAssign.value_ = 22 ∧
    ctorsMain_h2_afterMoveAssign.val2 = 2 := by
  decide

/-- C9: the forwarding demonstration — value-construct an instance with
2, transfer it into `valAssign`, which move-constructs a local and reads
its `value_` — outputs 2. -/
theorem forwardingMain_output_eq_two : forwardingMainOutput = 2 := by
  decide

/-- C10: move construction and move assignment leave the source instance
observably unchanged: both its `value_` and `val2` after the operation
equal their values before it (moving a plain scalar copies it). -/
theorem move_source_unchanged (o d : IntWrapper) :
    (IntWrapper.moveCtor o).2 = o ∧ (d.moveAssign o).2 = o := by
  constructor <;> rfl
